import Mathlib

/-!
Shallow embedding of `src/cura/PrinterOutput/UploadMaterialsJob.py`
(class `UploadMaterialsJob`): the material-upload job that requests an
upload slot, uploads a material archive, and fans out one confirmation
request per cloud printer, tracking per-printer status and progress.

Modelling conventions:
- Python float progress values become rationals.
- The per-printer status dict `_printer_sync_status` becomes an ordered
  association list with Python-dict update semantics (update in place,
  append on new key).
- Each handler returns the list of externally observable events it emits
  (signal emissions, HTTP requests, filesystem effects), in order, paired
  with `Except PyError JobState`: an `Except.error` models an uncaught
  Python exception raised partway through the handler (events already
  emitted before the raise are kept in the list).
- External collaborators (the container registry, `tempfile`,
  `exportAll`, `os.path.getsize`, the HTTP transport) are modelled as
  inputs: `run` receives the registry result, the temporary file name,
  the progress fractions reported during export, and the file size;
  response bodies arrive as arguments of the completion handlers.
- The `Result` inner enum is embedded with its members exactly as
  declared in the source (`SUCCCESS`, `FAILED`), and every Python
  attribute access `self.Result.<name>` is embedded as the dynamic
  lookup `Result.attr <name>`, which can fail with an AttributeError.
-/

namespace UploadMaterials

/-- Exceptions the embedded handlers can raise. -/
inductive PyError where
  | attributeError
  | typeError
deriving DecidableEq

/-- Members of the inner enum `UploadMaterialsJob.Result`, exactly as the
source declares them: `SUCCCESS = 0` (sic, three C) and `FAILED = 1`. -/
inductive Result where
  | SUCCCESS
  | FAILED
deriving DecidableEq

/-- Dynamic attribute lookup on the `Result` enum class, as Python performs
for `self.Result.<name>`: only the declared member names resolve. -/
def Result.attr : String → Option Result
  | "SUCCCESS" => some Result.SUCCCESS
  | "FAILED" => some Result.FAILED
  | _ => none

/-- Cloud API root, an external constant
(`UltimakerCloudConstants.CuraCloudAPIRoot`). -/
def CuraCloudAPIRoot : String := "https://api.ultimaker.com"

/-- URL of the phase-1 upload-slot request (`UPLOAD_REQUEST_URL`). -/
def UPLOAD_REQUEST_URL : String :=
  CuraCloudAPIRoot ++ "/connect/v1/materials/upload"

/-- URL of a per-printer confirmation request: the source holds a format
string (`UPLOAD_CONFIRM_URL`) with the cluster id and printer id
substituted by `str.format`; here the substitution is a function. -/
def UPLOAD_CONFIRM_URL (cluster_id cluster_printer_id : String) : String :=
  CuraCloudAPIRoot ++ "/connect/v1/clusters/" ++ cluster_id ++ "/printers/"
    ++ cluster_printer_id ++ "/action/confirm_material_upload"

/-- Ordered association list standing for the dict
`_printer_sync_status : host_guid -> status string`. -/
abbrev StatusTable := List (String × String)

/-- Dict lookup: first binding of the key, if any. -/
def lookupKey : StatusTable → String → Option String
  | [], _ => none
  | (k, v) :: rest, q => if k = q then some v else lookupKey rest q

/-- Dict assignment `d[k] = v`: replaces the value in place when the key
exists, appends a new binding otherwise (Python insertion order). -/
def setKey : StatusTable → String → String → StatusTable
  | [], k, v => [(k, v)]
  | (k0, v0) :: rest, k, v =>
      if k0 = k then (k, v) :: rest else (k0, v0) :: setKey rest k v

/-- Request bodies handed to the HTTP transport. The phase-1 body is the
JSON document `data: file_size, file_name, content_type, origin`
(serialised by `json.dumps` in the source); the phase-2 body is the raw
bytes of the archive file, identified here by its path. -/
inductive Payload where
  | jsonData (file_size : Nat) (file_name content_type origin : String)
  | fileBytes (path : String)
deriving DecidableEq

/-- Externally observable events a handler can emit, in order: signal
emissions, outgoing HTTP requests and filesystem effects. -/
inductive Event where
  | httpPut (url : String) (body : Payload)
  | httpGet (url : String)
  | uploadProgressChanged (progress : ℚ) (status : StatusTable)
  | uploadCompleted (result : Option Result) (error : Option String)
  | fsCreateTemp (path : String)
  | fsGetSize (path : String)
  | fsReadFile (path : String)
  | fsDelete (path : String)
deriving DecidableEq

/-- Whether an event is a deletion of a file. -/
def Event.isFsDelete : Event → Bool
  | Event.fsDelete _ => true
  | _ => false

/-- Whether an event is a per-printer confirmation request (the only GET
the job ever issues). -/
def Event.isHttpGet : Event → Bool
  | Event.httpGet _ => true
  | _ => false

/-- Whether an event is the completion notification `uploadCompleted`. -/
def Event.isUploadCompleted : Event → Bool
  | Event.uploadCompleted _ _ => true
  | _ => false

/-- Metadata of one eligible cloud printer, as returned by the container
registry: the two fields the job reads. -/
structure PrinterMeta where
  host_guid : String
  um_cloud_cluster_id : String
deriving DecidableEq

/-- Mutable fields of the job object that the embedded handlers touch.
`result` and `error` are the fields behind `setResult` / `setError` of the
`Job` base class. -/
structure JobState where
  archive_filename : Option String
  archive_remote_id : Option String
  printer_metadata : List PrinterMeta
  printer_sync_status : StatusTable
  result : Option Result
  error : Option String
deriving DecidableEq

/-- Job state right after `__init__`. -/
def initState : JobState :=
  { archive_filename := none
    archive_remote_id := none
    printer_metadata := []
    printer_sync_status := []
    result := none
    error := none }

/-- Error message used when the phase-1 response fails to parse. -/
def msgCorrupted : String :=
  "The response from Digital Factory appears to be corrupted."

/-- Error message used when the phase-1 response lacks a required field. -/
def msgMissingInfo : String :=
  "The response from Digital Factory is missing important information."

/-- Error message used by `onError` for transport failures. -/
def msgConnectFailed : String := "Failed to connect to Digital Factory."

/-- Error message used at finalization when some printer failed. -/
def msgSomePrintersFailed : String :=
  "Failed to connect to Digital Factory to sync materials with some of the printers."

/-- Overwrite loop of `failed`: `for printer_id in self._printer_sync_status:
set status to "failed"` (every key keeps its position, every value becomes
"failed"). -/
def setAllFailed (l : StatusTable) : StatusTable :=
  l.map (fun kv => (kv.1, "failed"))

/-- General-failure helper `failed`: sets the job result to FAILED, stores
the error, overwrites every status of the table to "failed", emits
progress 1.0 and then the completion notification. -/
def failed (msg : String) (st : JobState) : List Event × Except PyError JobState :=
  match Result.attr "FAILED" with
  | none => ([], Except.error PyError.attributeError)
  | some r =>
    let st1 : JobState :=
      { st with result := some r
                error := some msg
                printer_sync_status := setAllFailed st.printer_sync_status }
    ([Event.uploadProgressChanged 1 st1.printer_sync_status,
      Event.uploadCompleted st1.result st1.error], Except.ok st1)

/-- Transport error handler `onError`: logs and delegates to `failed` with
a generic connectivity message. -/
def onError (st : JobState) : List Event × Except PyError JobState :=
  failed msgConnectFailed st

/-- Status initialization loop of `run`: each registry entry gets status
"uploading" under its `host_guid` key. -/
def initStatuses (ms : List PrinterMeta) (l : StatusTable) : StatusTable :=
  ms.foldl (fun acc m => setKey acc m.host_guid "uploading") l

/-- Slot of `_onProcessProgressChanged`: forwards the archive-export
fraction scaled by 0.8 ("the processing is 80 percent of the progress
bar"), together with the current status table. -/
def onProcessProgressChanged (progress : ℚ) (st : JobState) : List Event :=
  [Event.uploadProgressChanged (progress * (4 / 5)) st.printer_sync_status]

/-- Entry point `run`: stores the registry result, marks every printer as
"uploading", creates the temporary archive file, exports all materials
into it (each export-progress callback emitting a scaled progress event),
reads the file size, and issues the phase-1 PUT with the JSON metadata
body. External inputs: the registry result `printer_metadata`, the
temporary file name, the export-progress fractions, and the file size. -/
def run (printer_metadata : List PrinterMeta) (archive_name : String)
    (export_progress : List ℚ) (file_size : Nat) (st : JobState) :
    List Event × Except PyError JobState :=
  let st1 : JobState :=
    { st with printer_metadata := printer_metadata
              printer_sync_status :=
                initStatuses printer_metadata st.printer_sync_status
              archive_filename := some archive_name }
  ([Event.fsCreateTemp archive_name]
      ++ export_progress.map
          (fun p =>
            Event.uploadProgressChanged (p * (4 / 5)) st1.printer_sync_status)
      ++ [Event.fsGetSize archive_name,
          Event.httpPut UPLOAD_REQUEST_URL
            (Payload.jsonData file_size "cura.umm" "application/zip" "cura")],
   Except.ok st1)

/-- Phase-1 completion handler `onUploadRequestCompleted`. Its input is
the result of `HttpRequestManager.readJSON(reply)`: `none` when the body
failed to parse, otherwise the response object restricted to its string
fields. A parse failure or a missing `upload_url` or
`material_profile_id` field delegates to `failed`; otherwise the handler
stores the remote archive id, reads the archive bytes and issues the
phase-2 PUT to the supplied destination. -/
def onUploadRequestCompleted (response_data : Option (List (String × String)))
    (st : JobState) : List Event × Except PyError JobState :=
  match response_data with
  | none => failed msgCorrupted st
  | some data =>
    match lookupKey data "upload_url" with
    | none => failed msgMissingInfo st
    | some upload_url =>
      match lookupKey data "material_profile_id" with
      | none => failed msgMissingInfo st
      | some profile_id =>
        match st.archive_filename with
        | none => ([], Except.error PyError.typeError)
        | some fn =>
          ([Event.fsReadFile fn, Event.httpPut upload_url (Payload.fileBytes fn)],
           Except.ok { st with archive_remote_id := some profile_id })

/-- Phase-2 completion handler `onUploadCompleted`: fans out one
confirmation GET per registry entry, each scoped to that entry's cluster
id and printer id, without waiting for each other. -/
def onUploadCompleted (st : JobState) : List Event × Except PyError JobState :=
  (st.printer_metadata.map
      (fun m => Event.httpGet (UPLOAD_CONFIRM_URL m.um_cloud_cluster_id m.host_guid)),
   Except.ok st)

/-- Status write at the top of `onUploadConfirmed`: "failed" when the
transport reported an error, "success" otherwise. -/
def confirmStatusUpdate (l : StatusTable) (printer_id : String)
    (error : Option String) : StatusTable :=
  if error.isSome then setKey l printer_id "failed"
  else setKey l printer_id "success"

/-- Count of printers still in "uploading" state, as the source computes
it: the length of the filtered value list. -/
def stillUploadingCount (l : StatusTable) : Nat :=
  (l.filter (fun kv => kv.2 == "uploading")).length

/-- Membership test `"failed" in self._printer_sync_status.values()`. -/
def hasFailed (l : StatusTable) : Bool :=
  l.any (fun kv => kv.2 == "failed")

/-- Confirmation resolution handler `onUploadConfirmed` for one printer:
writes that printer's status, emits the recomputed progress
`0.8 + (total - still_uploading) / total` with the updated table, and, if
no printer is still uploading, finalizes: result FAILED plus error when
some status is "failed", otherwise the dynamic lookup `Result.SUCCESS`
(which has no matching member — the declared member is `SUCCCESS` — so
this branch raises an AttributeError); finally emits the completion
notification with the stored result and error. -/
def onUploadConfirmed (printer_id : String) (error : Option String)
    (st : JobState) : List Event × Except PyError JobState :=
  let s1 := confirmStatusUpdate st.printer_sync_status printer_id error
  let still_uploading := stillUploadingCount s1
  let progress : ℚ :=
    4 / 5 + ((s1.length : ℚ) - (still_uploading : ℚ)) / (s1.length : ℚ)
  let ev := Event.uploadProgressChanged progress s1
  if still_uploading = 0 then
    if hasFailed s1 then
      match Result.attr "FAILED" with
      | none => ([ev], Except.error PyError.attributeError)
      | some r =>
        let st1 : JobState :=
          { st with printer_sync_status := s1
                    result := some r
                    error := some msgSomePrintersFailed }
        ([ev, Event.uploadCompleted st1.result st1.error], Except.ok st1)
    else
      match Result.attr "SUCCESS" with
      | none => ([ev], Except.error PyError.attributeError)
      | some r =>
        let st1 : JobState := { st with printer_sync_status := s1, result := some r }
        ([ev, Event.uploadCompleted st1.result st1.error], Except.ok st1)
  else
    ([ev], Except.ok { st with printer_sync_status := s1 })


/-! Shared lemmas about the status table. -/

/-- Looking up a key right after assigning it yields the assigned value. -/
theorem lookupKey_setKey_self (l : StatusTable) (k v : String) :
    lookupKey (setKey l k v) k = some v := by
  induction l with
  | nil => simp [setKey, lookupKey]
  | cons kv rest ih =>
    by_cases h : kv.1 = k
    · simp [setKey, h, lookupKey]
    · simp [setKey, h, lookupKey, ih]

/-- Assigning one key leaves every other key's binding unchanged. -/
theorem lookupKey_setKey_ne (l : StatusTable) (k v q : String) (hq : q ≠ k) :
    lookupKey (setKey l k v) q = lookupKey l q := by
  induction l with
  | nil => simp [setKey, lookupKey, Ne.symm hq]
  | cons kv rest ih =>
    by_cases h : kv.1 = k
    · subst h
      simp [setKey, lookupKey, Ne.symm hq]
    · simp [setKey, h, lookupKey, ih]

/-- After the overwrite loop of `failed`, every key that was bound is bound
to "failed", and no new key appears. -/
theorem lookupKey_setAllFailed (l : StatusTable) (k : String) :
    lookupKey (setAllFailed l) k = (lookupKey l k).map (fun _ => "failed") := by
  induction l with
  | nil => simp [setAllFailed, lookupKey]
  | cons kv rest ih =>
    by_cases h : kv.1 = k
    · simp [setAllFailed, lookupKey, h]
    · simp only [setAllFailed, List.map_cons, lookupKey, if_neg h]
      simpa [setAllFailed] using ih

/-- Malformed phase-1 responses (unparseable, or missing `upload_url` or
`material_profile_id`) make `onUploadRequestCompleted` finalize through
`failed` with a non-empty message and emit no further request. -/
theorem uploadRequest_malformed (rd : Option (List (String × String)))
    (st : JobState)
    (h : rd = none ∨ ∃ d, rd = some d ∧
        (lookupKey d "upload_url" = none ∨ lookupKey d "material_profile_id" = none)) :
    ∃ msg, msg ≠ "" ∧
      onUploadRequestCompleted rd st
        = ([Event.uploadProgressChanged 1 (setAllFailed st.printer_sync_status),
            Event.uploadCompleted (some Result.FAILED) (some msg)],
           Except.ok { st with result := some Result.FAILED,
                               error := some msg,
                               printer_sync_status := setAllFailed st.printer_sync_status }) := by
  rcases h with h | ⟨d, rfl, hd⟩
  · subst h
    exact ⟨msgCorrupted, by decide, by simp [onUploadRequestCompleted, failed, Result.attr]⟩
  · rcases hd with hu | hm
    · exact ⟨msgMissingInfo, by decide,
        by simp [onUploadRequestCompleted, hu, failed, Result.attr]⟩
    · cases hu : lookupKey d "upload_url" with
      | none =>
        exact ⟨msgMissingInfo, by decide,
          by simp [onUploadRequestCompleted, hu, failed, Result.attr]⟩
      | some u =>
        exact ⟨msgMissingInfo, by decide,
          by simp [onUploadRequestCompleted, hu, hm, failed, Result.attr]⟩

/-! Claim theorems. -/

/-- C1: the claim says that with N >= 1 printers whose confirmations all
resolve without error, the job result is success and the final emitted
progress is 1.0. The code refutes both parts: with a single printer whose
confirmation resolves without error, the handler emits progress 9/5
(the 0.2 weighting factor is missing), and finalization raises an
AttributeError because it looks up enum member SUCCESS while the declared
member is SUCCCESS, so no result is ever set and no completion
notification is emitted. -/
theorem c1_all_success_crashes_with_progress_above_one :
    onUploadConfirmed "p1" none
        { initState with printer_sync_status := [("p1", "uploading")] }
      = ([Event.uploadProgressChanged (9 / 5) [("p1", "success")]],
         Except.error PyError.attributeError)
    ∧ (9 : ℚ) / 5 ≠ 1
    ∧ Result.attr "SUCCESS" = none := by
  refine ⟨?_, by norm_num, by simp [Result.attr]⟩
  simp [onUploadConfirmed, confirmStatusUpdate, setKey, stillUploadingCount,
    hasFailed, Result.attr, initState]
  norm_num

/-- C2: the claim says each confirmation resolution emits progress
0.8 + 0.2 * (resolved / total). The code emits
0.8 + (resolved / total) instead: with two printers, the first
resolution emits 13/10, while the claimed formula gives
0.8 + 0.2 * (1/2) = 9/10. -/
theorem c2_progress_formula_lacks_weighting_factor :
    (onUploadConfirmed "p1" none
        { initState with
            printer_sync_status := [("p1", "uploading"), ("p2", "uploading")] }).1
      = [Event.uploadProgressChanged (13 / 10) [("p1", "success"), ("p2", "uploading")]]
    ∧ (13 : ℚ) / 10 ≠ 4 / 5 + 1 / 5 * (1 / 2) := by
  constructor
  · simp [onUploadConfirmed, confirmStatusUpdate, setKey, stillUploadingCount,
      hasFailed, initState]
    norm_num
  · norm_num

/-- C3: the claim says every emitted progress value lies in [0, 1] and the
last value at or before completion is 1.0. The code refutes it: with one
printer whose confirmation resolves with a transport error, the handler
emits progress 9/5 (greater than 1) immediately before emitting the
completion notification. -/
theorem c3_emitted_progress_exceeds_one_before_completion :
    onUploadConfirmed "p1" (some "network error")
        { initState with printer_sync_status := [("p1", "uploading")] }
      = ([Event.uploadProgressChanged (9 / 5) [("p1", "failed")],
          Event.uploadCompleted (some Result.FAILED) (some msgSomePrintersFailed)],
         Except.ok
           { archive_filename := none, archive_remote_id := none,
             printer_metadata := [], printer_sync_status := [("p1", "failed")],
             result := some Result.FAILED, error := some msgSomePrintersFailed })
    ∧ ¬ ((9 : ℚ) / 5 ≤ 1) := by
  constructor
  · simp [onUploadConfirmed, confirmStatusUpdate, setKey, stillUploadingCount,
      hasFailed, Result.attr, initState]
    norm_num
  · norm_num

/-- C4: the claim says starting with zero eligible printer targets fails
immediately with a ConfigurationError and performs no network calls. The
code has no such check: with an empty registry result, `run` creates the
archive, reads its size, and issues the phase-1 upload request (a network
call), raising nothing and emitting no completion notification. -/
theorem c4_empty_target_list_still_issues_upload_request :
    run [] "archive.tmp" [] 0 initState
      = ([Event.fsCreateTemp "archive.tmp", Event.fsGetSize "archive.tmp",
          Event.httpPut UPLOAD_REQUEST_URL
            (Payload.jsonData 0 "cura.umm" "application/zip" "cura")],
         Except.ok { initState with archive_filename := some "archive.tmp" })
    ∧ ((run [] "archive.tmp" [] 0 initState).1.countP Event.isUploadCompleted) = 0 := by
  constructor
  · simp [run, initStatuses, initState]
  · simp [run, initStatuses, List.countP_cons, Event.isUploadCompleted]

/-- C5: if the phase-1 response is unparseable or lacks `upload_url` or
`material_profile_id`, the job fails immediately with a non-empty
user-facing message (result FAILED, progress forced to 1.0) and issues no
confirmation request: the only events are the progress emission and the
single completion notification, with no outgoing GET. -/
theorem c5_malformed_response_fails_without_confirmations
    (rd : Option (List (String × String))) (st : JobState)
    (h : rd = none ∨ ∃ d, rd = some d ∧
        (lookupKey d "upload_url" = none ∨ lookupKey d "material_profile_id" = none)) :
    ∃ msg, msg ≠ "" ∧
      onUploadRequestCompleted rd st
        = ([Event.uploadProgressChanged 1 (setAllFailed st.printer_sync_status),
            Event.uploadCompleted (some Result.FAILED) (some msg)],
           Except.ok { st with result := some Result.FAILED,
                               error := some msg,
                               printer_sync_status := setAllFailed st.printer_sync_status })
      ∧ ((onUploadRequestCompleted rd st).1.all (fun e => !e.isHttpGet)) = true := by
  obtain ⟨msg, hmsg, heq⟩ := uploadRequest_malformed rd st h
  refine ⟨msg, hmsg, heq, ?_⟩
  rw [heq]
  simp [Event.isHttpGet]

/-- C5 witness: instantiation at an unparseable response and the initial
state. -/
theorem c5_witness :
    ∃ msg, msg ≠ "" ∧
      onUploadRequestCompleted none initState
        = ([Event.uploadProgressChanged 1 (setAllFailed initState.printer_sync_status),
            Event.uploadCompleted (some Result.FAILED) (some msg)],
           Except.ok { initState with
                        result := some Result.FAILED,
                        error := some msg,
                        printer_sync_status := setAllFailed initState.printer_sync_status })
      ∧ ((onUploadRequestCompleted none initState).1.all (fun e => !e.isHttpGet)) = true :=
  c5_malformed_response_fails_without_confirmations none initState (Or.inl rfl)

/-- C6: the claim says that at finalization the result is failed iff some
printer failed, and that otherwise the result is success with no error.
The failed direction matches the code, but the all-success direction is
refuted: with two printers both confirming without error, the last
resolution reaches the success branch, which looks up enum member SUCCESS
while the declared member is SUCCCESS, raising an AttributeError: no
terminal result is ever set and no completion notification is emitted. -/
theorem c6_all_success_finalization_raises_attribute_error :
    onUploadConfirmed "p2" none
        { initState with
            printer_sync_status := [("p1", "success"), ("p2", "uploading")] }
      = ([Event.uploadProgressChanged (9 / 5) [("p1", "success"), ("p2", "success")]],
         Except.error PyError.attributeError)
    ∧ Result.attr "SUCCESS" = none
    ∧ Result.attr "SUCCCESS" = some Result.SUCCCESS := by
  refine ⟨?_, by simp [Result.attr], by simp [Result.attr]⟩
  simp [onUploadConfirmed, confirmStatusUpdate, setKey, stillUploadingCount,
    hasFailed, Result.attr, initState]
  norm_num

/-- C7: on any fatal phase-1 or phase-2 failure, the job emits progress
1.0, sets result FAILED with a non-empty error message, and emits exactly
one completion notification: this holds for the transport handler
`onError` (the error callback of both PUT requests) and for every
malformed phase-1 response handled by `onUploadRequestCompleted`. -/
theorem c7_fatal_failure_forces_progress_one_single_completion
    (st : JobState) (rd : Option (List (String × String)))
    (h : rd = none ∨ ∃ d, rd = some d ∧
        (lookupKey d "upload_url" = none ∨ lookupKey d "material_profile_id" = none)) :
    (onError st
        = ([Event.uploadProgressChanged 1 (setAllFailed st.printer_sync_status),
            Event.uploadCompleted (some Result.FAILED) (some msgConnectFailed)],
           Except.ok { st with result := some Result.FAILED,
                               error := some msgConnectFailed,
                               printer_sync_status := setAllFailed st.printer_sync_status })
      ∧ msgConnectFailed ≠ ""
      ∧ ((onError st).1.countP Event.isUploadCompleted) = 1)
    ∧ (∃ msg, msg ≠ ""
        ∧ onUploadRequestCompleted rd st
            = ([Event.uploadProgressChanged 1 (setAllFailed st.printer_sync_status),
                Event.uploadCompleted (some Result.FAILED) (some msg)],
               Except.ok { st with result := some Result.FAILED,
                                   error := some msg,
                                   printer_sync_status := setAllFailed st.printer_sync_status })
        ∧ ((onUploadRequestCompleted rd st).1.countP Event.isUploadCompleted) = 1) := by
  constructor
  · refine ⟨by simp [onError, failed, Result.attr], by decide, ?_⟩
    simp [onError, failed, Result.attr, List.countP_cons, Event.isUploadCompleted]
  · obtain ⟨msg, hmsg, heq⟩ := uploadRequest_malformed rd st h
    refine ⟨msg, hmsg, heq, ?_⟩
    rw [heq]
    simp [List.countP_cons, Event.isUploadCompleted]

/-- C7 witness: instantiation at an unparseable phase-1 response and the
initial state. -/
theorem c7_witness :
    (onError initState
        = ([Event.uploadProgressChanged 1 (setAllFailed initState.printer_sync_status),
            Event.uploadCompleted (some Result.FAILED) (some msgConnectFailed)],
           Except.ok { initState with
                        result := some Result.FAILED,
                        error := some msgConnectFailed,
                        printer_sync_status := setAllFailed initState.printer_sync_status })
      ∧ msgConnectFailed ≠ ""
      ∧ ((onError initState).1.countP Event.isUploadCompleted) = 1)
    ∧ (∃ msg, msg ≠ ""
        ∧ onUploadRequestCompleted none initState
            = ([Event.uploadProgressChanged 1 (setAllFailed initState.printer_sync_status),
                Event.uploadCompleted (some Result.FAILED) (some msg)],
               Except.ok { initState with
                            result := some Result.FAILED,
                            error := some msg,
                            printer_sync_status := setAllFailed initState.printer_sync_status })
        ∧ ((onUploadRequestCompleted none initState).1.countP Event.isUploadCompleted) = 1) :=
  c7_fatal_failure_forces_progress_one_single_completion initState none (Or.inl rfl)

/-- C8: when a printer's confirmation resolves, that printer's status
becomes "success" exactly when no error occurred and "failed" otherwise
(the error callback covers transport errors and error-status responses
alike); every sibling's status binding is untouched, and while any
sibling is still uploading the handler neither raises, nor changes the
result, nor emits a completion notification: it only emits the recomputed
progress. -/
theorem c8_confirmation_sets_single_status_without_aborting
    (pid q : String) (err : Option String) (st : JobState) (hq : q ≠ pid) :
    lookupKey (confirmStatusUpdate st.printer_sync_status pid err) pid
        = some (if err.isSome then "failed" else "success")
    ∧ lookupKey (confirmStatusUpdate st.printer_sync_status pid err) q
        = lookupKey st.printer_sync_status q
    ∧ (stillUploadingCount (confirmStatusUpdate st.printer_sync_status pid err) ≠ 0 →
        onUploadConfirmed pid err st
          = ([Event.uploadProgressChanged
                (4 / 5 + (((confirmStatusUpdate st.printer_sync_status pid err).length : ℚ)
                      - (stillUploadingCount (confirmStatusUpdate st.printer_sync_status pid err) : ℚ))
                    / ((confirmStatusUpdate st.printer_sync_status pid err).length : ℚ))
                (confirmStatusUpdate st.printer_sync_status pid err)],
             Except.ok { st with
                          printer_sync_status :=
                            confirmStatusUpdate st.printer_sync_status pid err })) := by
  refine ⟨?_, ?_, ?_⟩
  · cases err <;> simp [confirmStatusUpdate, lookupKey_setKey_self]
  · cases err <;> simp [confirmStatusUpdate, lookupKey_setKey_ne _ _ _ _ hq]
  · intro hstill
    simp only [onUploadConfirmed]
    rw [if_neg hstill]

/-- Concrete two-printer state used to instantiate the C8 theorem. -/
def twoPrinterState : JobState :=
  { initState with
      printer_sync_status := [("p1", "uploading"), ("p2", "uploading")] }

/-- C8 witness: instantiation with two uploading printers, the first one
confirming without error while the second is still uploading. -/
theorem c8_witness :
    lookupKey (confirmStatusUpdate twoPrinterState.printer_sync_status "p1" none) "p1"
        = some (if (none : Option String).isSome then "failed" else "success")
    ∧ lookupKey (confirmStatusUpdate twoPrinterState.printer_sync_status "p1" none) "p2"
        = lookupKey twoPrinterState.printer_sync_status "p2"
    ∧ onUploadConfirmed "p1" none twoPrinterState
        = ([Event.uploadProgressChanged
              (4 / 5 + (((confirmStatusUpdate twoPrinterState.printer_sync_status "p1" none).length : ℚ)
                    - (stillUploadingCount (confirmStatusUpdate twoPrinterState.printer_sync_status "p1" none) : ℚ))
                  / ((confirmStatusUpdate twoPrinterState.printer_sync_status "p1" none).length : ℚ))
              (confirmStatusUpdate twoPrinterState.printer_sync_status "p1" none)],
           Except.ok { twoPrinterState with
                        printer_sync_status :=
                          confirmStatusUpdate twoPrinterState.printer_sync_status "p1" none }) :=
  ⟨(c8_confirmation_sets_single_status_without_aborting "p1" "p2" none
      twoPrinterState (by decide)).1,
   (c8_confirmation_sets_single_status_without_aborting "p1" "p2" none
      twoPrinterState (by decide)).2.1,
   (c8_confirmation_sets_single_status_without_aborting "p1" "p2" none
      twoPrinterState (by decide)).2.2 (by decide)⟩

/-- C9: no operation of the job ever emits a file-deletion effect: `run`,
both upload handlers, the fan-out, the confirmation handler, the
transport-error handler, the general-failure helper and the export
progress slot all leave the temporary archive (and every other file) in
place on every path, success or failure. -/
theorem c9_no_path_deletes_the_archive :
    (∀ pm an eps fs st,
        ((run pm an eps fs st).1.all (fun e => !e.isFsDelete)) = true)
    ∧ (∀ rd st,
        ((onUploadRequestCompleted rd st).1.all (fun e => !e.isFsDelete)) = true)
    ∧ (∀ st, ((onUploadCompleted st).1.all (fun e => !e.isFsDelete)) = true)
    ∧ (∀ pid err st,
        ((onUploadConfirmed pid err st).1.all (fun e => !e.isFsDelete)) = true)
    ∧ (∀ st, ((onError st).1.all (fun e => !e.isFsDelete)) = true)
    ∧ (∀ m st, ((failed m st).1.all (fun e => !e.isFsDelete)) = true)
    ∧ (∀ p st,
        ((onProcessProgressChanged p st).all (fun e => !e.isFsDelete)) = true) := by
  refine ⟨?_, ?_, ?_, ?_, ?_, ?_, ?_⟩
  · intro pm an eps fs st
    simp [run, Event.isFsDelete, List.all_eq_true]
  · intro rd st
    cases rd with
    | none => simp [onUploadRequestCompleted, failed, Result.attr, Event.isFsDelete]
    | some d =>
      cases hu : lookupKey d "upload_url" with
      | none => simp [onUploadRequestCompleted, hu, failed, Result.attr, Event.isFsDelete]
      | some u =>
        cases hm : lookupKey d "material_profile_id" with
        | none =>
          simp [onUploadRequestCompleted, hu, hm, failed, Result.attr, Event.isFsDelete]
        | some pid =>
          cases haf : st.archive_filename with
          | none => simp [onUploadRequestCompleted, hu, hm, haf, Event.isFsDelete]
          | some fn => simp [onUploadRequestCompleted, hu, hm, haf, Event.isFsDelete]
  · intro st
    simp [onUploadCompleted, Event.isFsDelete, List.all_eq_true]
  · intro pid err st
    simp only [onUploadConfirmed]
    split
    · split
      · simp [Result.attr, Event.isFsDelete]
      · simp [Result.attr, Event.isFsDelete]
    · simp [Event.isFsDelete]
  · intro st
    simp [onError, failed, Result.attr, Event.isFsDelete]
  · intro m st
    simp [failed, Result.attr, Event.isFsDelete]
  · intro p st
    simp [onProcessProgressChanged, Event.isFsDelete]

/-- C10: the general-failure helper overwrites the status of every printer
in the table to "failed" (every bound key, whether or not a confirmation
was ever sent for it, is rebound to "failed" and no key is added or
dropped), and this overwritten table is already carried by the progress
emission that precedes the single completion notification. -/
theorem c10_general_failure_marks_every_printer_failed (m : String) (st : JobState) :
    failed m st
      = ([Event.uploadProgressChanged 1 (setAllFailed st.printer_sync_status),
          Event.uploadCompleted (some Result.FAILED) (some m)],
         Except.ok { st with result := some Result.FAILED,
                             error := some m,
                             printer_sync_status := setAllFailed st.printer_sync_status })
    ∧ ∀ k, lookupKey (setAllFailed st.printer_sync_status) k
          = (lookupKey st.printer_sync_status k).map (fun _ => "failed") :=
  ⟨by simp [failed, Result.attr], fun k => lookupKey_setAllFailed _ k⟩

end UploadMaterials
